/-
Verification of the coq-config reconciliation script (src/coq-config.py)
against its natural-language specification.

The script is shallowly embedded: Python strings become Lean `String`
(with character-list based split/strip mirroring `str.split('\n')` and
`str.strip()`), the YAML document becomes the inductive `Yaml`, the
cerberus schema check becomes `validate`, and each Python function
becomes a Lean function from its arguments and an abstract `World`
(probe outputs, filesystem, child-process success) to the list of
observable events (prints, executed commands) paired with an `Outcome`
(normal return or `sys.exit code`).  Uncaught Python exceptions
(KeyError from indexing a missing dict key in `main`) are modelled as a
`crash` event followed by the interpreter's exit status 1.
-/
import Mathlib

set_option linter.unusedVariables false

/-- A parsed YAML document, as produced by `yaml.load` in `load_config`. -/
inductive Yaml where
  | str (s : String)
  | bool (b : Bool)
  | list (xs : List Yaml)
  | dict (kvs : List (String × Yaml))
  | null

/-- Python dict lookup on the association-list view of a YAML mapping. -/
def lookupY (k : String) : List (String × Yaml) → Option Yaml
  | [] => none
  | (k', v) :: rest => if k' = k then some v else lookupY k rest

/-- cerberus: a required field of type string (`'required': True, 'type': 'string'`). -/
def reqStr (o : Option Yaml) : Bool :=
  match o with
  | some (Yaml.str _) => true
  | _ => false

/-- cerberus: an optional field of type string. -/
def optStr (o : Option Yaml) : Bool :=
  match o with
  | some (Yaml.str _) => true
  | some _ => false
  | none => true

/-- cerberus: an optional field of type boolean. -/
def optBool (o : Option Yaml) : Bool :=
  match o with
  | some (Yaml.bool _) => true
  | some _ => false
  | none => true

/-- The `opam` sub-schema of SCHEMA: a dict with required string fields
`switch` and `compiler` and no unknown keys. -/
def checkOpam : Yaml → Bool
  | Yaml.dict kvs =>
    reqStr (lookupY "switch" kvs) && reqStr (lookupY "compiler" kvs) &&
    kvs.all (fun kv => kv.1 == "switch" || kv.1 == "compiler")
  | _ => false

/-- The `dependencies` sub-schema: a list of strings. -/
def checkDeps : Yaml → Bool
  | Yaml.list xs => xs.all (fun x => match x with | Yaml.str _ => true | _ => false)
  | _ => false

/-- One `extra-deps` entry: a dict with required string `git` and `path`,
optional string `commit`, optional boolean `recurse-submodules`. -/
def checkExtraDep : Yaml → Bool
  | Yaml.dict kvs =>
    reqStr (lookupY "git" kvs) && optStr (lookupY "commit" kvs) &&
    optBool (lookupY "recurse-submodules" kvs) && reqStr (lookupY "path" kvs) &&
    kvs.all (fun kv =>
      kv.1 == "git" || kv.1 == "commit" || kv.1 == "recurse-submodules" || kv.1 == "path")
  | _ => false

/-- The `extra-deps` sub-schema: a list of entry dicts. -/
def checkExtraDeps : Yaml → Bool
  | Yaml.list xs => xs.all checkExtraDep
  | _ => false

/-- One `repositories` entry: a dict with required string `name` and `address`. -/
def checkRepoEntry : Yaml → Bool
  | Yaml.dict kvs =>
    reqStr (lookupY "name" kvs) && reqStr (lookupY "address" kvs) &&
    kvs.all (fun kv => kv.1 == "name" || kv.1 == "address")
  | _ => false

/-- The `repositories` sub-schema: a list of entry dicts. -/
def checkRepos : Yaml → Bool
  | Yaml.list xs => xs.all checkRepoEntry
  | _ => false

/-- Validation of a top-level mapping against SCHEMA: `opam` required,
the three lists optional, unknown top-level keys rejected
(cerberus default `allow_unknown = False`). -/
def validateTop (kvs : List (String × Yaml)) : Bool :=
  (match lookupY "opam" kvs with
   | some v => checkOpam v
   | none => false) &&
  (match lookupY "dependencies" kvs with
   | some v => checkDeps v
   | none => true) &&
  (match lookupY "extra-deps" kvs with
   | some v => checkExtraDeps v
   | none => true) &&
  (match lookupY "repositories" kvs with
   | some v => checkRepos v
   | none => true) &&
  kvs.all (fun kv =>
    kv.1 == "opam" || kv.1 == "dependencies" || kv.1 == "extra-deps" || kv.1 == "repositories")

/-- Model of `Validator(SCHEMA).validate(cfg, SCHEMA)`: `some b` is a normal
boolean verdict on a mapping; `none` models the `DocumentError` cerberus
raises on a non-mapping document (caught by the bare `except` in
`load_config`). -/
def validate : Yaml → Option Bool
  | Yaml.dict kvs => some (validateTop kvs)
  | _ => none

/-- One `repositories` entry of the typed view of a validated document. -/
structure RepoEntry where
  name : String
  address : String
deriving DecidableEq

/-- One `extra-deps` entry of the typed view of a validated document.
`commit` and `recurseSubmodules` are `none` when the key is absent. -/
structure ExtraDep where
  git : String
  commit : Option String
  recurseSubmodules : Option Bool
  path : String
deriving DecidableEq

/-- Typed view of a validated document.  The three optional sections are
`none` exactly when the corresponding top-level key is absent from the
YAML mapping (main indexes them with `cfg[...]`, so absence matters). -/
structure Config where
  switch : String
  compiler : String
  dependencies : Option (List String)
  extraDeps : Option (List ExtraDep)
  repositories : Option (List RepoEntry)
deriving DecidableEq

def toStrList : List Yaml → Option (List String)
  | [] => some []
  | Yaml.str s :: rest => (toStrList rest).map (s :: ·)
  | _ => none

def toExtraDep : Yaml → Option ExtraDep
  | Yaml.dict kvs =>
    match lookupY "git" kvs, lookupY "path" kvs with
    | some (Yaml.str g), some (Yaml.str p) =>
      let c := match lookupY "commit" kvs with
               | some (Yaml.str s) => some s
               | _ => none
      let r := match lookupY "recurse-submodules" kvs with
               | some (Yaml.bool b) => some b
               | _ => none
      some { git := g, commit := c, recurseSubmodules := r, path := p }
    | _, _ => none
  | _ => none

def toExtraDeps : List Yaml → Option (List ExtraDep)
  | [] => some []
  | x :: rest =>
    match toExtraDep x, toExtraDeps rest with
    | some d, some ds => some (d :: ds)
    | _, _ => none

def toRepoEntry : Yaml → Option RepoEntry
  | Yaml.dict kvs =>
    match lookupY "name" kvs, lookupY "address" kvs with
    | some (Yaml.str n), some (Yaml.str a) => some { name := n, address := a }
    | _, _ => none
  | _ => none

def toRepoEntries : List Yaml → Option (List RepoEntry)
  | [] => some []
  | x :: rest =>
    match toRepoEntry x, toRepoEntries rest with
    | some r, some rs => some (r :: rs)
    | _, _ => none

/-- Extraction of the typed view from a validated YAML mapping. -/
def toConfig : Yaml → Option Config
  | Yaml.dict kvs =>
    match lookupY "opam" kvs with
    | some (Yaml.dict okvs) =>
      match lookupY "switch" okvs, lookupY "compiler" okvs with
      | some (Yaml.str sw), some (Yaml.str comp) =>
        let deps := match lookupY "dependencies" kvs with
                    | some (Yaml.list xs) => (toStrList xs).map some
                    | some _ => none
                    | none => some none
        let eds := match lookupY "extra-deps" kvs with
                   | some (Yaml.list xs) => (toExtraDeps xs).map some
                   | some _ => none
                   | none => some none
        let reps := match lookupY "repositories" kvs with
                    | some (Yaml.list xs) => (toRepoEntries xs).map some
                    | some _ => none
                    | none => some none
        match deps, eds, reps with
        | some d, some e, some r =>
          some { switch := sw, compiler := comp, dependencies := d, extraDeps := e, repositories := r }
        | _, _, _ => none
      | _, _ => none
    | _ => none
  | _ => none

/-- An observable action of a run: a `print` to stdout, a captured-output
probe (`subprocess.check_output`), an executed external command
(`subprocess.check_call`, plain or with `cwd=`), or an uncaught Python
exception reaching the excepthook. -/
inductive Event where
  | msg (s : String)
  | query (cmd : List String)
  | run (cmd : List String)
  | runIn (cwd : String) (cmd : List String)
  | crash (exn : String)
deriving DecidableEq

/-- Result of a step: a normal return or `sys.exit code`. -/
inductive Outcome (α : Type) where
  | ok (a : α)
  | exit (code : Nat)
deriving DecidableEq

/-- Sequencing of steps, accumulating events; a `sys.exit` aborts the rest. -/
def bindE {α β : Type} (x : List Event × Outcome α) (f : α → List Event × Outcome β) :
    List Event × Outcome β :=
  match x with
  | (es, Outcome.ok a) => ((f a).1 |> (es ++ ·), (f a).2)
  | (es, Outcome.exit c) => (es, Outcome.exit c)

/-- The final `sys.exit(0)` of `main`: a normal return exits 0. -/
def finish (x : List Event × Outcome Unit) : List Event × Nat :=
  match x with
  | (es, Outcome.ok _) => (es, 0)
  | (es, Outcome.exit c) => (es, c)

/-- An uncaught `KeyError` from `cfg[k]`: the excepthook prints a trace and
the interpreter exits with status 1. -/
def keyErr {α : Type} (k : String) : List Event × Outcome α :=
  ([Event.crash ("KeyError: " ++ k)], Outcome.exit 1)

/-- Model of `" ".join(cmd)`. -/
def joinSp (cmd : List String) : String := String.intercalate " " cmd

/-- Python `str.split('\n')` on the character-list view of a string:
split at every newline, keeping empty segments (including a trailing one
when the string ends in a newline). -/
def pySplit : List Char → List (List Char)
  | [] => [[]]
  | c :: rest =>
    if c = '\n' then [] :: pySplit rest
    else (pySplit rest).modifyHead (fun l => c :: l)

/-- Python `str.strip()`: drop whitespace from both ends. -/
def pyStrip (cs : List Char) : List Char :=
  ((cs.dropWhile Char.isWhitespace).reverse.dropWhile Char.isWhitespace).reverse

/-- Model of `list(map(str.strip, out.split('\n')))` — the probe post-processing
shared by `opam_get_switches` and `opam_get_repositoris`. -/
def pyLines (s : String) : List String :=
  (pySplit s.data).map (fun cs => (pyStrip cs).asString)

/-- The ambient state a run observes and acts on: whether `~/.opam`
exists, the stdout of the two probe commands (`none` = the probe
invocation raised), filesystem existence for extra-dep paths, and
success of each `subprocess.check_call` (by optional `cwd` and argument
vector). -/
structure World where
  opamRootExists : Bool
  switchesOutput : Option String
  reposOutput : String → Option String
  pathExists : String → Bool
  execOk : Option String → List String → Bool

/-- Model of `opam_check` (src lines 108-114): exit 2 unless the opam root exists. -/
def opam_check (verbose : Bool) (w : World) : List Event × Outcome Unit :=
  let pre := if verbose then [Event.msg "Checking OPAM presence"] else []
  if w.opamRootExists then (pre, Outcome.ok ())
  else (pre ++ [Event.msg "OPAM is not initialized. Please set up OPAM with `opam init`."],
        Outcome.exit 2)

/-- Model of `opam_get_switches` (src lines 85-94): probe `opam switch list -s`,
exit 2 if it raises, else return its stripped lines. -/
def opam_get_switches (verbose : Bool) (w : World) : List Event × Outcome (List String) :=
  let pre := if verbose then [Event.msg "Checking OPAM switches"] else []
  match w.switchesOutput with
  | some out => (pre ++ [Event.query ["opam", "switch", "list", "-s"]], Outcome.ok (pyLines out))
  | none => (pre ++ [Event.query ["opam", "switch", "list", "-s"],
                     Event.msg "Error getting list of OPAM switches"],
             Outcome.exit 2)

/-- Model of `opam_get_repositoris` (src lines 96-105): probe
`opam repo list -s --on-switches=<switch>`, exit 2 if it raises, else
return its stripped lines. -/
def opam_get_repositoris (verbose : Bool) (switch : String) (w : World) :
    List Event × Outcome (List String) :=
  let pre := if verbose then [Event.msg "Checking OPAM repositories"] else []
  match w.reposOutput switch with
  | some out => (pre ++ [Event.query ["opam", "repo", "list", "-s", "--on-switches=" ++ switch]],
                 Outcome.ok (pyLines out))
  | none => (pre ++ [Event.query ["opam", "repo", "list", "-s", "--on-switches=" ++ switch],
                     Event.msg "Error getting list of OPAM repositories"],
             Outcome.exit 2)

/-- Model of `load_config` (src lines 116-136): exit 1 if the file is missing; exit 1
with "Error reading" if parsing (or cerberus on a non-mapping) raises;
exit 1 printing the violations if validation fails; else return the
document.  `cfgExists` models `os.path.exists(cfgfile)` and `parsed` the
result of `yaml.load` (`none` = a parse exception). -/
def load_config (verbose : Bool) (cfgfile : String) (cfgExists : Bool) (parsed : Option Yaml) :
    List Event × Outcome Yaml :=
  if cfgExists then
    let pre := if verbose then [Event.msg ("Loading '" ++ cfgfile ++ "'")] else []
    match parsed with
    | none => (pre ++ [Event.msg ("Error reading '" ++ cfgfile ++ "'")], Outcome.exit 1)
    | some doc =>
      match validate doc with
      | none => (pre ++ [Event.msg ("Error reading '" ++ cfgfile ++ "'")], Outcome.exit 1)
      | some false => (pre ++ [Event.msg ("Invalid config '" ++ cfgfile ++ "'"),
                               Event.msg "<field-level violations>"],
                       Outcome.exit 1)
      | some true => (pre, Outcome.ok doc)
  else ([Event.msg ("'" ++ cfgfile ++ "' not found")], Outcome.exit 1)

/-- Model of `opam_switch_create` (src lines 138-152).  The source assigns `cmd`
inside the `if verbose:` block, so with `verbose` false the `try` body
raises `NameError` before doing anything; the bare `except` then prints
the error and exits 3. -/
def opam_switch_create (verbose dry_run : Bool) (switch compiler : String) (w : World) :
    List Event × Outcome Unit :=
  if verbose then
    let cmd := ["opam", "switch", "create", "--no-switch", switch, compiler]
    let pre := [Event.msg ("Creating switch '" ++ switch ++ "'")]
    if dry_run then
      (pre ++ [Event.msg ("DRY RUN: " ++ joinSp cmd),
               Event.msg ("Switch '" ++ switch ++ "' successfully created")],
       Outcome.ok ())
    else if w.execOk none cmd then
      (pre ++ [Event.run cmd, Event.msg ("Switch '" ++ switch ++ "' successfully created")],
       Outcome.ok ())
    else
      (pre ++ [Event.run cmd, Event.msg "Error creating OPAM switch"], Outcome.exit 3)
  else
    ([Event.msg "Error creating OPAM switch"], Outcome.exit 3)

/-- Model of `opam_repo_add` (src lines 154-168).  Same `cmd`-under-`verbose` shape
as `opam_switch_create`. -/
def opam_repo_add (verbose dry_run : Bool) (switch rn ra : String) (w : World) :
    List Event × Outcome Unit :=
  if verbose then
    let cmd := ["opam", "repo", "add", rn, ra, "--on-switches=" ++ switch]
    let pre := [Event.msg ("Adding repository '" ++ rn ++ "'")]
    if dry_run then
      (pre ++ [Event.msg ("DRY RUN: " ++ joinSp cmd),
               Event.msg ("Repository '" ++ rn ++ "' successfully created")],
       Outcome.ok ())
    else if w.execOk none cmd then
      (pre ++ [Event.run cmd, Event.msg ("Repository '" ++ rn ++ "' successfully created")],
       Outcome.ok ())
    else
      (pre ++ [Event.run cmd, Event.msg "Error adding OPAM repository"], Outcome.exit 3)
  else
    ([Event.msg "Error adding OPAM repository"], Outcome.exit 3)

/-- Model of `opam_install_packages` (src lines 170-186).  Here `cmd` is assigned
inside the `try` in both branches, so the step works with or without
`verbose`; in dry-run mode it still executes `opam install --dry-run`
(the `DRY RUN:` print is commented out in the source). -/
def opam_install_packages (verbose dry_run : Bool) (switch : String) (packages : List String)
    (w : World) : List Event × Outcome Unit :=
  let pkgs := joinSp packages
  let pre := if verbose then [Event.msg ("Installing: " ++ pkgs)] else []
  let cmd := if dry_run then "opam" :: "install" :: "--dry-run" :: ("--switch=" ++ switch) :: packages
             else "opam" :: "install" :: "--yes" :: ("--switch=" ++ switch) :: packages
  if w.execOk none cmd then
    (pre ++ [Event.run cmd] ++ (if verbose then [Event.msg ("Installed: " ++ pkgs)] else []),
     Outcome.ok ())
  else
    (pre ++ [Event.run cmd, Event.msg "Error installing pakages"], Outcome.exit 3)

/-- Model of `git_clone` (src lines 188-205).  `cmd` (with `--recurse-submodules`
when `rs`, else `-n`) is assigned inside the `if verbose:` block, so with
`verbose` false the step raises `NameError` and exits 3. -/
def git_clone (verbose dry_run : Bool) (path git_url : String) (rs : Bool) (w : World) :
    List Event × Outcome Unit :=
  if verbose then
    let cmd := if rs then ["git", "clone", "--recurse-submodules", git_url, path]
               else ["git", "clone", "-n", git_url, path]
    let pre := [Event.msg ("Cloning from git '" ++ git_url ++ "'")]
    if dry_run then
      (pre ++ [Event.msg ("DRY RUN: " ++ joinSp cmd),
               Event.msg ("Cloned '" ++ git_url ++ "' to '" ++ path ++ "'")],
       Outcome.ok ())
    else if w.execOk none cmd then
      (pre ++ [Event.run cmd, Event.msg ("Cloned '" ++ git_url ++ "' to '" ++ path ++ "'")],
       Outcome.ok ())
    else
      (pre ++ [Event.run cmd, Event.msg "Error performing git clone"], Outcome.exit 3)
  else
    ([Event.msg "Error performing git clone"], Outcome.exit 3)

/-- Model of `git_checkout` (src lines 207-225).  `cmd` (`git checkout`, plus
`--recurse-submodules` when `rs`, plus the commit when given) is built
inside the `if verbose:` block, so with `verbose` false the step raises
`NameError` and exits 3; when it runs, `check_call` uses `cwd=path`. -/
def git_checkout (verbose dry_run : Bool) (path : String) (commit : Option String) (rs : Bool)
    (w : World) : List Event × Outcome Unit :=
  if verbose then
    let cmd := ["git", "checkout"] ++ (if rs then ["--recurse-submodules"] else []) ++
               (match commit with | some c => [c] | none => [])
    let pre := [Event.msg ("Checking out at '" ++ path ++ "'")]
    if dry_run then
      (pre ++ [Event.msg ("DRY RUN: " ++ joinSp cmd),
               Event.msg ("Checked out at '" ++ path ++ "'")],
       Outcome.ok ())
    else if w.execOk (some path) cmd then
      (pre ++ [Event.runIn path cmd, Event.msg ("Checked out at '" ++ path ++ "'")],
       Outcome.ok ())
    else
      (pre ++ [Event.runIn path cmd, Event.msg "Error performing git checkout"], Outcome.exit 3)
  else
    ([Event.msg "Error performing git checkout"], Outcome.exit 3)

/-- The repository loop of `main` (src lines 246-252): for each entry,
no-op (with a "found" message under verbose) when its name is among the
probed repository names, else `opam_repo_add`. -/
def reconcileRepos (verbose dry_run : Bool) (switch : String) (repos : List String) (w : World) :
    List RepoEntry → List Event × Outcome Unit
  | [] => ([], Outcome.ok ())
  | r :: rest =>
    bindE
      (if r.name ∈ repos then
        ((if verbose then [Event.msg ("Repository '" ++ r.name ++ "' found")] else []),
         Outcome.ok ())
       else opam_repo_add verbose dry_run switch r.name r.address w)
      (fun _ => reconcileRepos verbose dry_run switch repos w rest)

/-- The extra-deps loop of `main` (src lines 256-261): for each entry,
clone when the path does not exist, then always check out;
`recurse-submodules` defaults to `False` via `d.get`. -/
def reconcileExtras (verbose dry_run : Bool) (w : World) :
    List ExtraDep → List Event × Outcome Unit
  | [] => ([], Outcome.ok ())
  | d :: rest =>
    let rs := d.recurseSubmodules.getD false
    bindE
      (if w.pathExists d.path then ([], Outcome.ok ())
       else git_clone verbose dry_run d.path d.git rs w)
      (fun _ =>
        bindE (git_checkout verbose dry_run d.path d.commit rs w)
          (fun _ => reconcileExtras verbose dry_run w rest))

/-- The body of `main` after `load_config` returned (src lines 236-263),
over the typed view of the validated document: check the opam root,
probe switches, create the switch if absent, probe repositories,
reconcile each repository entry, install the dependency list, and
materialize each extra dependency; a normal end is `sys.exit(0)`.
Indexing an absent optional key (`cfg['repositories']` etc.) is the
uncaught `KeyError` of the source, modelled by `keyErr`. -/
def runMain (verbose dry_run : Bool) (cfg : Config) (w : World) : List Event × Nat :=
  finish
    (bindE (opam_check verbose w) (fun _ =>
     bindE (opam_get_switches verbose w) (fun switches =>
     bindE
       (if cfg.switch ∈ switches then
         ((if verbose then [Event.msg ("Switch '" ++ cfg.switch ++ "' found")] else []),
          Outcome.ok ())
        else opam_switch_create verbose dry_run cfg.switch cfg.compiler w)
       (fun _ =>
     bindE (opam_get_repositoris verbose cfg.switch w) (fun repos =>
     bindE
       (match cfg.repositories with
        | none => keyErr "repositories"
        | some rs => reconcileRepos verbose dry_run cfg.switch repos w rs)
       (fun _ =>
     bindE
       (match cfg.dependencies with
        | none => keyErr "dependencies"
        | some deps => opam_install_packages verbose dry_run cfg.switch deps w)
       (fun _ =>
     match cfg.extraDeps with
     | none => keyErr "extra-deps"
     | some eds => reconcileExtras verbose dry_run w eds)))))))

/-- Recognizes an executed `opam switch create ...` command. -/
def isCreateSwitchEvt : Event → Bool
  | Event.run ("opam" :: "switch" :: "create" :: _) => true
  | _ => false

/-- Recognizes an executed `opam repo add ...` command. -/
def isRepoAddEvt : Event → Bool
  | Event.run ("opam" :: "repo" :: "add" :: _) => true
  | _ => false

/-- Recognizes an executed `git clone ...` command. -/
def isCloneEvt : Event → Bool
  | Event.run ("git" :: "clone" :: _) => true
  | _ => false

/-- Recognizes an executed `git checkout ...` command (run with `cwd=`). -/
def isCheckoutEvt : Event → Bool
  | Event.runIn _ ("git" :: "checkout" :: _) => true
  | _ => false

/-- Recognizes any executed external command (`subprocess.check_call`). -/
def isExecEvt : Event → Bool
  | Event.run _ => true
  | Event.runIn _ _ => true
  | _ => false

/-- A healthy world: opam initialized, probes answer `default` plus a
trailing newline, no extra-dep path present, every child process
succeeds. -/
def wGood : World where
  opamRootExists := true
  switchesOutput := some "default\n"
  reposOutput := fun _ => some "default\n"
  pathExists := fun _ => false
  execOk := fun _ _ => true

/-- Like `wGood` but the path `./x` already exists on disk. -/
def wX : World where
  opamRootExists := true
  switchesOutput := some "default\n"
  reposOutput := fun _ => some "default\n"
  pathExists := fun p => p == "./x"
  execOk := fun _ _ => true

/-- The spec scenario config: switch `4.14` (not among the probed
switches), compiler `4.14.0`, all optional sections present and empty. -/
def cfgSwitch : Config where
  switch := "4.14"
  compiler := "4.14.0"
  dependencies := some []
  extraDeps := some []
  repositories := some []

/-- A config whose switch is already present and whose optional sections
are all absent (the keys are missing from the document). -/
def cfgAbsent : Config where
  switch := "default"
  compiler := "4.14.0"
  dependencies := none
  extraDeps := none
  repositories := none

/-- Switch present; one extra-dep pinned to commit `abc123` at `./x`. -/
def cfgExtra : Config where
  switch := "default"
  compiler := "4.14.0"
  dependencies := some []
  extraDeps := some [{ git := "https://example.com/x.git", commit := some "abc123",
                       recurseSubmodules := none, path := "./x" }]
  repositories := some []

/-- Switch present; one repository entry not among the probed names. -/
def cfgRepo : Config where
  switch := "default"
  compiler := "4.14.0"
  dependencies := some []
  extraDeps := some []
  repositories := some [{ name := "coq-released", address := "https://coq.inria.fr/opam/released" }]

/-- C1: the claim says `--verbose` never changes behavior.  It does: on a
config whose switch must be created, the run with `--verbose` executes
the create-switch command and exits 0, while the run without it executes
no command at all (the `NameError` on the `cmd` variable, assigned only
under `verbose`, aborts the step) and exits 3. -/
theorem C1_verbose_changes_behavior :
    (runMain true false cfgSwitch wGood).2 = 0 ∧
    (runMain false false cfgSwitch wGood).2 = 3 ∧
    Event.run ["opam", "switch", "create", "--no-switch", "4.14", "4.14.0"] ∈
      (runMain true false cfgSwitch wGood).1 ∧
    Event.run ["opam", "switch", "create", "--no-switch", "4.14", "4.14.0"] ∉
      (runMain false false cfgSwitch wGood).1 := by
  refine ⟨by decide, by decide, by decide, by decide⟩

/-- C2: the claim says absent optional sections behave as empty lists.
They do not: with `dependencies`, `repositories` and `extra-deps` all
absent, `main` indexes `cfg['repositories']`, the uncaught `KeyError`
terminates the interpreter with status 1, and the install step (which
the claim requires to run on an empty package list) is never reached —
no external command is executed at all. -/
theorem C2_absent_sections_crash :
    (runMain true false cfgAbsent wGood).2 = 1 ∧
    Event.crash "KeyError: repositories" ∈ (runMain true false cfgAbsent wGood).1 ∧
    ((runMain true false cfgAbsent wGood).1).all (fun e => !(isExecEvt e)) = true := by
  refine ⟨by decide, by decide, by decide⟩

/-- C3: the claim says that under `--dry-run` every mutating step prints
its command line and returns success.  Without `--verbose` it does not:
the dry-run of a config whose switch must be created executes nothing
(correct) but exits 3 instead of printing and succeeding, because `cmd`
is only assigned under `verbose`.  With `--verbose` the claimed behavior
does hold on this input, the only executed command being the install
step's own `opam install --dry-run` introspection. -/
theorem C3_dry_run_needs_verbose :
    (runMain false true cfgSwitch wGood).2 = 3 ∧
    ((runMain false true cfgSwitch wGood).1).all (fun e => !(isExecEvt e)) = true ∧
    Event.msg "DRY RUN: opam switch create --no-switch 4.14 4.14.0" ∉
      (runMain false true cfgSwitch wGood).1 ∧
    (runMain true true cfgSwitch wGood).2 = 0 ∧
    ((runMain true true cfgSwitch wGood).1).filter isExecEvt =
      [Event.run ["opam", "install", "--dry-run", "--switch=4.14"]] := by
  refine ⟨by decide, by decide, by decide, by decide, by decide⟩

/-- C5: the claim says a missing switch leads to exactly one create-switch
command.  Without `--verbose` the run issues zero create-switch commands
and exits 3 (the `NameError` on `cmd` aborts `opam_switch_create`); with
`--verbose` the single expected command is issued. -/
theorem C5_create_switch_not_issued :
    ((runMain false false cfgSwitch wGood).1).filter isCreateSwitchEvt = [] ∧
    (runMain false false cfgSwitch wGood).2 = 3 ∧
    ((runMain true false cfgSwitch wGood).1).filter isCreateSwitchEvt =
      [Event.run ["opam", "switch", "create", "--no-switch", "4.14", "4.14.0"]] := by
  refine ⟨by decide, by decide, by decide⟩

/-- C6: the claim says the checkout is issued unconditionally for every
extra-deps entry.  Without `--verbose` it never is: on an entry whose
path already exists, the run issues no clone (correct) but also no
checkout, exiting 3 instead; with `--verbose` the expected unconditional
checkout to the pinned commit is issued. -/
theorem C6_checkout_not_unconditional :
    (runMain false false cfgExtra wX).2 = 3 ∧
    ((runMain false false cfgExtra wX).1).filter isCheckoutEvt = [] ∧
    ((runMain false false cfgExtra wX).1).filter isCloneEvt = [] ∧
    (runMain true false cfgExtra wX).2 = 0 ∧
    ((runMain true false cfgExtra wX).1).filter isCloneEvt = [] ∧
    ((runMain true false cfgExtra wX).1).filter isCheckoutEvt =
      [Event.runIn "./x" ["git", "checkout", "abc123"]] := by
  refine ⟨by decide, by decide, by decide, by decide, by decide, by decide⟩

/-- C7: the claim says a repository entry absent from the probed names
leads to exactly one add-repository command.  Without `--verbose` the
run issues zero add-repository commands and exits 3 (the `NameError` on
`cmd` aborts `opam_repo_add`); with `--verbose` the single expected
command, scoped to the switch via `--on-switches=`, is issued. -/
theorem C7_repo_add_not_issued :
    ((runMain false false cfgRepo wGood).1).filter isRepoAddEvt = [] ∧
    (runMain false false cfgRepo wGood).2 = 3 ∧
    ((runMain true false cfgRepo wGood).1).filter isRepoAddEvt =
      [Event.run ["opam", "repo", "add", "coq-released",
                  "https://coq.inria.fr/opam/released", "--on-switches=default"]] ∧
    (runMain true false cfgRepo wGood).2 = 0 := by
  refine ⟨by decide, by decide, by decide, by decide⟩

/-- A schema-valid document holding only the required `opam` section. -/
def docOpamOnly : Yaml :=
  Yaml.dict [("opam", Yaml.dict [("switch", Yaml.str "default"),
                                 ("compiler", Yaml.str "4.14.0")])]

/-- C4: the claim says exit code 1 occurs exactly for a missing,
unparsable or schema-invalid config.  Not so: `docOpamOnly` validates,
the loader returns it, yet the run exits 1 — the uncaught `KeyError` on
the absent `repositories` key also terminates the interpreter with
status 1, on a perfectly valid config with no mutating command having
failed. -/
theorem C4_exit1_despite_valid_config :
    validate docOpamOnly = some true ∧
    (load_config true "coq_config.yaml" true (some docOpamOnly)).2 = Outcome.ok docOpamOnly ∧
    toConfig docOpamOnly = some cfgAbsent ∧
    (runMain true false cfgAbsent wGood).2 = 1 ∧
    Event.crash "KeyError: repositories" ∈ (runMain true false cfgAbsent wGood).1 := by
  refine ⟨by decide, rfl, by decide, by decide, by decide⟩

/-- The document lacks `opam.switch` or `opam.compiler`: either the
`opam` key is absent or not a mapping, or its mapping is missing one of
the two required keys. -/
def missingOpamField (kvs : List (String × Yaml)) : Bool :=
  match lookupY "opam" kvs with
  | some (Yaml.dict ops) => (lookupY "switch" ops).isNone || (lookupY "compiler" ops).isNone
  | some _ => true
  | none => true

/-- C8: a well-formed document missing the required `opam.switch` or
`opam.compiler` field fails cerberus validation, and the loader prints
the invalid-config message (followed by the field-level violations) and
exits with code 1 instead of returning a document. -/
theorem C8_missing_required_field (verbose : Bool) (fn : String)
    (kvs : List (String × Yaml)) (hmiss : missingOpamField kvs = true) :
    validate (Yaml.dict kvs) = some false ∧
    (load_config verbose fn true (some (Yaml.dict kvs))).2 = Outcome.exit 1 ∧
    Event.msg ("Invalid config '" ++ fn ++ "'") ∈
      (load_config verbose fn true (some (Yaml.dict kvs))).1 := by
  have hv : validateTop kvs = false := by
    unfold missingOpamField at hmiss
    unfold validateTop
    cases h : lookupY "opam" kvs with
    | none => simp
    | some v =>
      cases v with
      | dict ops =>
        rw [h] at hmiss
        simp [Option.isNone_iff_eq_none] at hmiss
        rcases hmiss with h1 | h1 <;> simp [checkOpam, reqStr, h1]
      | str s => simp [checkOpam]
      | bool b => simp [checkOpam]
      | list xs => simp [checkOpam]
      | null => simp [checkOpam]
  refine ⟨by simp [validate, hv], ?_, ?_⟩
  · simp [load_config, validate, hv]
  · cases verbose <;> simp [load_config, validate, hv]

/-- A document whose `opam` section lacks the `compiler` field. -/
def kvsNoCompiler : List (String × Yaml) :=
  [("opam", Yaml.dict [("switch", Yaml.str "4.14")])]

theorem C8_missing_required_field_witness :
    missingOpamField kvsNoCompiler = true ∧
    validate (Yaml.dict kvsNoCompiler) = some false ∧
    (load_config true "coq_config.yaml" true (some (Yaml.dict kvsNoCompiler))).2 =
      Outcome.exit 1 :=
  ⟨by decide,
   (C8_missing_required_field true "coq_config.yaml" kvsNoCompiler (by decide)).1,
   (C8_missing_required_field true "coq_config.yaml" kvsNoCompiler (by decide)).2.1⟩

/-- C9: every executed clone command has the fixed argument shape chosen
by the entry's `recurse-submodules` flag (obtained in `main` via
`d.get('recurse-submodules', False)`, so an absent flag is `False`):
`--recurse-submodules` when the flag is true, the no-checkout flag `-n`
when it is false or absent. -/
theorem C9_clone_flag_shape (verbose dry_run : Bool) (ors : Option Bool) (p u : String)
    (w : World) (e : Event)
    (he : e ∈ (git_clone verbose dry_run p u (ors.getD false) w).1)
    (hrun : isExecEvt e = true) :
    e = Event.run (if ors.getD false then ["git", "clone", "--recurse-submodules", u, p]
                   else ["git", "clone", "-n", u, p]) := by
  set rs := ors.getD false with hrs
  clear_value rs
  cases verbose with
  | false =>
    simp [git_clone] at he
    subst he
    simp [isExecEvt] at hrun
  | true =>
    cases dry_run with
    | true =>
      simp [git_clone] at he
      rcases he with h | h | h <;> subst h <;> simp [isExecEvt] at hrun
    | false =>
      cases hex : w.execOk none (if rs then ["git", "clone", "--recurse-submodules", u, p]
                                 else ["git", "clone", "-n", u, p]) with
      | true =>
        simp [git_clone, hex] at he
        rcases he with h | h | h
        · subst h; simp [isExecEvt] at hrun
        · exact h
        · subst h; simp [isExecEvt] at hrun
      | false =>
        simp [git_clone, hex] at he
        rcases he with h | h | h
        · subst h; simp [isExecEvt] at hrun
        · exact h
        · subst h; simp [isExecEvt] at hrun

theorem C9_clone_flag_shape_witness :
    Event.run ["git", "clone", "-n", "https://example.com/x.git", "./x"] ∈
      (git_clone true false "./x" "https://example.com/x.git"
        ((none : Option Bool).getD false) wGood).1 ∧
    Event.run ["git", "clone", "-n", "https://example.com/x.git", "./x"] =
      Event.run (if (none : Option Bool).getD false
                 then ["git", "clone", "--recurse-submodules", "https://example.com/x.git", "./x"]
                 else ["git", "clone", "-n", "https://example.com/x.git", "./x"]) :=
  ⟨by decide,
   C9_clone_flag_shape true false none "./x" "https://example.com/x.git" wGood
     (Event.run ["git", "clone", "-n", "https://example.com/x.git", "./x"])
     (by decide) (by decide)⟩

/-- Splitting a character list that ends in a newline yields a trailing
empty segment. -/
theorem pySplit_concat_newline (xs : List Char) :
    ∃ l, l ≠ [] ∧ pySplit (xs ++ ['\n']) = l ++ [[]] := by
  induction xs with
  | nil => exact ⟨[[]], by simp, rfl⟩
  | cons c cs ih =>
    obtain ⟨l, hl, hsplit⟩ := ih
    by_cases hc : c = '\n'
    · subst hc
      refine ⟨[] :: l, by simp, ?_⟩
      simp [pySplit, hsplit]
    · obtain ⟨a, l₂, rfl⟩ := List.exists_cons_of_ne_nil hl
      refine ⟨(c :: a) :: l₂, by simp, ?_⟩
      simp [pySplit, hc, hsplit]

/-- The probe post-processing of any newline-terminated output ends in a
trailing empty-string element. -/
theorem pyLines_trailing_empty (t : String) :
    ∃ l, pyLines (t ++ "\n") = l ++ [""] := by
  obtain ⟨l, hl, hsplit⟩ := pySplit_concat_newline t.data
  refine ⟨l.map (fun cs => (pyStrip cs).asString), ?_⟩
  have hdata : (t ++ "\n").data = t.data ++ ['\n'] := by
    rw [String.data_append]
  have hempty : ([] : List Char).asString = "" := rfl
  simp [pyLines, hdata, hsplit, pyStrip, hempty]

/-- No create-switch and no add-repository command among the events. -/
def noRepoActs (es : List Event) : Prop :=
  ∀ e ∈ es, isCreateSwitchEvt e = false ∧ isRepoAddEvt e = false

theorem noRepoActs_nil : noRepoActs [] := by
  intro e he
  simp at he

theorem noRepoActs_append {a b : List Event} (ha : noRepoActs a) (hb : noRepoActs b) :
    noRepoActs (a ++ b) := by
  intro e he
  rcases List.mem_append.mp he with h | h
  · exact ha e h
  · exact hb e h

theorem noRepoActs_bindE {α β : Type} {x : List Event × Outcome α}
    {f : α → List Event × Outcome β} (hx : noRepoActs x.1)
    (hf : ∀ a, x.2 = Outcome.ok a → noRepoActs (f a).1) :
    noRepoActs (bindE x f).1 := by
  obtain ⟨es, o⟩ := x
  cases o with
  | ok a => exact noRepoActs_append hx (hf a rfl)
  | exit c => exact hx

theorem noRepoActs_opam_check (v : Bool) (w : World) : noRepoActs (opam_check v w).1 := by
  unfold opam_check
  cases v <;> cases hw : w.opamRootExists <;> simp [hw] <;>
    intro e he <;> simp at he <;> first
      | (subst he; exact ⟨rfl, rfl⟩)
      | (rcases he with he | he <;> subst he <;> exact ⟨rfl, rfl⟩)

theorem noRepoActs_get_switches (v : Bool) (w : World) :
    noRepoActs (opam_get_switches v w).1 := by
  unfold opam_get_switches
  cases v <;> cases hw : w.switchesOutput <;> simp [hw] <;>
    intro e he <;> simp at he <;>
      rcases he with he | he <;> try subst he
  all_goals first
    | exact ⟨rfl, rfl⟩
    | (rcases he with he | he <;> subst he <;> exact ⟨rfl, rfl⟩)

theorem noRepoActs_get_repos (v : Bool) (sw : String) (w : World) :
    noRepoActs (opam_get_repositoris v sw w).1 := by
  unfold opam_get_repositoris
  cases v <;> cases hw : w.reposOutput sw <;> simp [hw] <;>
    intro e he <;> simp at he <;>
      rcases he with he | he <;> try subst he
  all_goals first
    | exact ⟨rfl, rfl⟩
    | (rcases he with he | he <;> subst he <;> exact ⟨rfl, rfl⟩)

theorem noRepoActs_install (v d : Bool) (sw : String) (pkgs : List String) (w : World) :
    noRepoActs (opam_install_packages v d sw pkgs w).1 := by
  unfold opam_install_packages
  cases v <;> cases d <;>
    cases hw : w.execOk none ("opam" :: "install" :: "--dry-run" :: ("--switch=" ++ sw) :: pkgs) <;>
    cases hw2 : w.execOk none ("opam" :: "install" :: "--yes" :: ("--switch=" ++ sw) :: pkgs) <;>
    simp [hw, hw2] <;> intro e he <;> simp at he <;>
      rcases he with he | he | he <;> try subst he
  all_goals exact ⟨rfl, rfl⟩

theorem noRepoActs_clone (v d : Bool) (p u : String) (rs : Bool) (w : World) :
    noRepoActs (git_clone v d p u rs w).1 := by
  unfold git_clone
  cases v <;> cases d <;> cases rs <;>
    cases hw : w.execOk none ["git", "clone", "--recurse-submodules", u, p] <;>
    cases hw2 : w.execOk none ["git", "clone", "-n", u, p] <;>
    simp [hw, hw2] <;> intro e he <;> simp at he <;>
      rcases he with he | he | he <;> try subst he
  all_goals exact ⟨rfl, rfl⟩

theorem mem_fst_ite {α : Type} {c : Prop} [Decidable c] {x y : List Event × Outcome α}
    {e : Event} (he : e ∈ (if c then x else y).1) : e ∈ x.1 ∨ e ∈ y.1 := by
  by_cases h : c
  · rw [if_pos h] at he
    exact Or.inl he
  · rw [if_neg h] at he
    exact Or.inr he

theorem noRepoActs_checkout (v d : Bool) (p : String) (c : Option String) (rs : Bool)
    (w : World) : noRepoActs (git_checkout v d p c rs w).1 := by
  intro e he
  unfold git_checkout at he
  rcases mem_fst_ite he with he | he
  · dsimp only at he
    rcases mem_fst_ite he with he | he
    · simp at he
      rcases he with he | he | he <;> subst he <;> exact ⟨rfl, rfl⟩
    · rcases mem_fst_ite he with he | he <;> simp at he <;>
        rcases he with he | he | he <;> subst he <;> exact ⟨rfl, rfl⟩
  · simp at he
    subst he
    exact ⟨rfl, rfl⟩

theorem noRepoActs_keyErr {α : Type} (k : String) : noRepoActs (keyErr (α := α) k).1 := by
  intro e he
  simp [keyErr] at he
  subst he
  exact ⟨rfl, rfl⟩

theorem noRepoActs_reconRepos (v d : Bool) (sw : String) (repos : List String) (w : World)
    (rs : List RepoEntry) (hnames : ∀ r ∈ rs, r.name ∈ repos) :
    noRepoActs (reconcileRepos v d sw repos w rs).1 := by
  induction rs with
  | nil => exact noRepoActs_nil
  | cons r rest ih =>
    unfold reconcileRepos
    apply noRepoActs_bindE
    · rw [if_pos (hnames r (by simp))]
      cases v <;> intro e he <;> simp at he
      subst he
      exact ⟨rfl, rfl⟩
    · intro _ _
      exact ih (fun r2 h2 => hnames r2 (by simp [h2]))

theorem noRepoActs_reconExtras (v d : Bool) (w : World) (eds : List ExtraDep) :
    noRepoActs (reconcileExtras v d w eds).1 := by
  induction eds with
  | nil => exact noRepoActs_nil
  | cons dd rest ih =>
    unfold reconcileExtras
    apply noRepoActs_bindE
    · by_cases hp : w.pathExists dd.path
      · rw [if_pos hp]
        exact noRepoActs_nil
      · rw [if_neg hp]
        exact noRepoActs_clone _ _ _ _ _ _
    · intro _ _
      apply noRepoActs_bindE (noRepoActs_checkout _ _ _ _ _ _)
      intro _ _
      exact ih

/-- C10: both probes return the newline-split, whitespace-stripped lines
of the tool's stdout; for newline-terminated output this list carries a
trailing empty-string element, so a desired switch named `""` and
repository entries named `""` are always found in the probed lists and
the run issues no create-switch and no add-repository command. -/
theorem C10_probe_lines (verbose dry_run : Bool) (cfg : Config) (w : World) (ts tr : String)
    (hs : w.switchesOutput = some (ts ++ "\n"))
    (hr : w.reposOutput cfg.switch = some (tr ++ "\n"))
    (hsw : cfg.switch = "")
    (hrn : ∀ r ∈ cfg.repositories.getD [], r.name = "") :
    (opam_get_switches verbose w).2 = Outcome.ok (pyLines (ts ++ "\n")) ∧
    (opam_get_repositoris verbose cfg.switch w).2 = Outcome.ok (pyLines (tr ++ "\n")) ∧
    (∃ l, pyLines (ts ++ "\n") = l ++ [""]) ∧
    (∃ l, pyLines (tr ++ "\n") = l ++ [""]) ∧
    noRepoActs (runMain verbose dry_run cfg w).1 := by
  have hmemS : "" ∈ pyLines (ts ++ "\n") := by
    obtain ⟨l, hl⟩ := pyLines_trailing_empty ts
    rw [hl]
    simp
  have hmemR : "" ∈ pyLines (tr ++ "\n") := by
    obtain ⟨l, hl⟩ := pyLines_trailing_empty tr
    rw [hl]
    simp
  refine ⟨?_, ?_, pyLines_trailing_empty ts, pyLines_trailing_empty tr, ?_⟩
  · simp [opam_get_switches, hs]
  · simp [opam_get_repositoris, hr]
  · unfold runMain
    have hfin : ∀ x : List Event × Outcome Unit, (finish x).1 = x.1 := by
      intro x
      obtain ⟨es, o⟩ := x
      cases o <;> rfl
    rw [hfin]
    apply noRepoActs_bindE (noRepoActs_opam_check verbose w)
    intro _ _
    apply noRepoActs_bindE (noRepoActs_get_switches verbose w)
    intro switches hsw2
    apply noRepoActs_bindE
    · have hswitches : switches = pyLines (ts ++ "\n") := by
        simp [opam_get_switches, hs] at hsw2
        exact hsw2.symm
      have hin : cfg.switch ∈ switches := by
        rw [hsw, hswitches]
        exact hmemS
      rw [if_pos hin]
      intro e he
      cases verbose with
      | true =>
        simp at he
        subst he
        exact ⟨rfl, rfl⟩
      | false => simp at he
    intro _ _
    apply noRepoActs_bindE (noRepoActs_get_repos verbose cfg.switch w)
    intro repos hrep
    apply noRepoActs_bindE
    · cases hcr : cfg.repositories with
      | none => exact noRepoActs_keyErr _
      | some rlist =>
        apply noRepoActs_reconRepos
        intro r hmem
        have hname : r.name = "" := hrn r (by rw [hcr]; simpa using hmem)
        have hrepos : repos = pyLines (tr ++ "\n") := by
          simp [opam_get_repositoris, hr] at hrep
          exact hrep.symm
        rw [hname, hrepos]
        exact hmemR
    intro _ _
    apply noRepoActs_bindE
    · cases hcd : cfg.dependencies with
      | none => exact noRepoActs_keyErr _
      | some deps => exact noRepoActs_install _ _ _ _ _
    intro _ _
    cases hce : cfg.extraDeps with
    | none => exact noRepoActs_keyErr _
    | some eds => exact noRepoActs_reconExtras _ _ _ _

/-- A config asking for the empty-string switch and one empty-string
repository name. -/
def cfgEmptyNames : Config where
  switch := ""
  compiler := "4.14.0"
  dependencies := some []
  extraDeps := some []
  repositories := some [{ name := "", address := "https://example.com/repo" }]

theorem C10_probe_lines_witness :
    (wGood.switchesOutput = some ("default" ++ "\n") ∧
     wGood.reposOutput cfgEmptyNames.switch = some ("default" ++ "\n") ∧
     cfgEmptyNames.switch = "" ∧
     ∀ r ∈ cfgEmptyNames.repositories.getD [], r.name = "") ∧
    ((opam_get_switches true wGood).2 = Outcome.ok (pyLines ("default" ++ "\n")) ∧
     (opam_get_repositoris true cfgEmptyNames.switch wGood).2 =
       Outcome.ok (pyLines ("default" ++ "\n")) ∧
     (∃ l, pyLines ("default" ++ "\n") = l ++ [""]) ∧
     (∃ l, pyLines ("default" ++ "\n") = l ++ [""]) ∧
     noRepoActs (runMain true false cfgEmptyNames wGood).1) :=
  ⟨⟨by decide, by decide, by decide, by decide⟩,
   C10_probe_lines true false cfgEmptyNames wGood "default" "default"
     (by decide) (by decide) (by decide) (by decide)⟩
